import Mathlib

/-!
Verification development for the Prompt-Gallery backend.

The Go sources are shallowly embedded as Lean definitions:

* `internal/models/prompt.go`   → `Prompt`, `difficultyValid`, `Prompt.beforeCreate`,
  `PromptFilter`, `PromptCreateRequest`, `PromptCreateRequest.toPrompt`
* `internal/models/request.go`  → `PromptRequest`, `requestStatusValid`, `priorityValid`,
  `PromptRequest.beforeCreate`, `PromptRequestCreateRequest`, `.toPromptRequest`
* `internal/repositories/prompt_repository.go` → `promptMatches` (the row predicate of
  `applyFilters`), `findAll`, `findByID`, `repoCreate`, `repoExists`, `repoDelete`,
  `incrementViewCount`
* the prompt service  → `getAllPrompts`, `getPromptByID`, `createPrompt`, `deletePrompt`,
  `validateCreateRequest`, `transformToResponse`
* the prompt handlers → the status-code mapping functions `getPromptsStatus`,
  `getPromptByIDStatus`, `createPromptStatus`, `deletePromptStatus`

The relational store is modelled as a list of rows inside `DbState`, together with
per-operation fault-injection fields (`failCount`, `failFind`, ...) standing for the
storage errors the ORM can surface.  The goroutine that increments the view counter is
modelled as a deferred task returned next to the response (`DeferredTask`, `runTask`).
Timestamps are modelled as natural numbers, and the RFC3339 rendering done by
`time.Format` is abstracted by the injective decimal rendering `formatTimestamp`.
-/

/-! ### String helpers (embedding of substring matching used by `applyFilters`) -/

/-- Character-list version of the check that `sub` occurs at the start of `l`. -/
def startsWithChars : List Char → List Char → Bool
  | _, [] => true
  | [], _ :: _ => false
  | a :: as, b :: bs => a == b && startsWithChars as bs

/-- Character-list version of the check that `sub` occurs somewhere inside `l`. -/
def hasSubChars (l sub : List Char) : Bool :=
  match l with
  | [] => sub.isEmpty
  | _ :: t => startsWithChars l sub || hasSubChars t sub

/-- `strContains s sub` is true when `sub` is a substring of `s`.  Embeds both Go's
`strings.Contains` (handler-layer error classification) and the SQL `LIKE` pattern
`%sub%` produced by the repository search filter. -/
def strContains (s sub : String) : Bool :=
  hasSubChars s.data sub.data

/-! ### Prompt data model (`internal/models/prompt.go`) -/

/-- Row of the `prompts` table.  `gorm.Model` contributes `id`, `createdAt`,
`updatedAt`; soft deletion is modelled by removing the row, since every query in the
repository excludes soft-deleted rows. -/
structure Prompt where
  id : Nat
  createdAt : Nat
  updatedAt : Nat
  title : String
  description : String
  language : String
  difficulty : String
  category : String
  problemStatement : String
  isVerified : Bool
  verifiedBy : Option Nat
  verifiedAt : Option Nat
  viewCount : Int
  likeCount : Int
  difficultyVote : Int
  tags : String
  authorID : Option Nat
  authorName : String
  authorEmail : String
deriving DecidableEq, Repr

/-- `DifficultyLevel.Valid` from `prompt.go`. -/
def difficultyValid (d : String) : Bool :=
  d == "beginner" || d == "intermediate" || d == "advanced" || d == "expert"

/-- `Prompt.BeforeCreate`: the GORM hook run by `db.Create`; coerces an invalid
difficulty to the default and never returns an error. -/
def Prompt.beforeCreate (p : Prompt) : Prompt :=
  if difficultyValid p.difficulty then p else { p with difficulty := "beginner" }

/-- `PromptFilter` from `prompt.go` (its `Page`/`Limit` fields are passed separately,
as in `FindAll`). -/
structure PromptFilter where
  language : String
  difficulty : String
  category : String
  isVerified : Option Bool
  search : String
deriving DecidableEq, Repr

/-- `PromptCreateRequest` from `prompt.go`. -/
structure PromptCreateRequest where
  title : String
  description : String
  language : String
  difficulty : String
  category : String
  problemStatement : String
  examples : String
  hints : String
  tags : String
  estimatedTime : Int
  authorName : String
  authorEmail : String
deriving DecidableEq, Repr

/-- `PromptCreateRequest.ToPrompt`: note that `examples`, `hints` and
`estimatedTime` are not copied into the record. -/
def PromptCreateRequest.toPrompt (req : PromptCreateRequest) : Prompt :=
  { id := 0
    createdAt := 0
    updatedAt := 0
    title := req.title
    description := req.description
    language := req.language
    difficulty := req.difficulty
    category := req.category
    problemStatement := req.problemStatement
    isVerified := false
    verifiedBy := none
    verifiedAt := none
    viewCount := 0
    likeCount := 0
    difficultyVote := 0
    tags := req.tags
    authorID := none
    authorName := req.authorName
    authorEmail := req.authorEmail }

/-! ### Database state and repository (`prompt_repository.go`) -/

/-- State of the store: the `prompts` table plus fault-injection fields, one per
repository operation, standing for the errors the underlying database can return.
`nextId`/`now` model the auto-increment key and the creation timestamp. -/
structure DbState where
  rows : List Prompt
  nextId : Nat
  now : Nat
  failCount : Option String := none
  failFind : Option String := none
  failCreate : Option String := none
  failExists : Option String := none
  failDelete : Option String := none
  failIncrement : Option String := none
deriving DecidableEq, Repr

/-- Row predicate of `applyFilters`: the conjunction of the WHERE clauses the
repository adds, each guarded by its field being supplied.  The search clause is
`LOWER(col) LIKE lower(term)` on title, description and problem statement. -/
def promptMatches (f : PromptFilter) (p : Prompt) : Bool :=
  (f.language == "" || p.language == f.language) &&
  (f.difficulty == "" || p.difficulty == f.difficulty) &&
  (f.category == "" || p.category == f.category) &&
  (match f.isVerified with
   | none => true
   | some v => p.isVerified == v) &&
  (f.search == "" ||
    (strContains p.title.toLower f.search.toLower ||
     strContains p.description.toLower f.search.toLower ||
     strContains p.problemStatement.toLower f.search.toLower))

/-- The rows selected by the filtered query, before ordering and pagination. -/
def filteredRows (db : DbState) (f : PromptFilter) : List Prompt :=
  db.rows.filter (promptMatches f)

/-- The `ORDER BY created_at DESC` relation. -/
def createdDescRel (a b : Prompt) : Prop :=
  b.createdAt ≤ a.createdAt

instance : DecidableRel createdDescRel :=
  fun a b => Nat.decLe b.createdAt a.createdAt

instance : IsTotal Prompt createdDescRel :=
  ⟨fun a b => Nat.le_total b.createdAt a.createdAt⟩

instance : IsTrans Prompt createdDescRel :=
  ⟨fun _ _ _ hab hbc => Nat.le_trans hbc hab⟩

/-- Stable sort by creation time, newest first (`Order("created_at DESC")`). -/
def sortByCreatedDesc (l : List Prompt) : List Prompt :=
  l.insertionSort createdDescRel

/-- `PromptRepository.FindAll`: count the filtered rows, then return the page at
offset `(page - 1) * limit` of the rows sorted newest first. -/
def findAll (db : DbState) (f : PromptFilter) (page limit : Nat) :
    Except String (List Prompt × Nat) :=
  match db.failCount with
  | some e => .error e
  | none =>
    match db.failFind with
    | some e => .error e
    | none =>
      let matching := filteredRows db f
      let pageRows := ((sortByCreatedDesc matching).drop ((page - 1) * limit)).take limit
      .ok (pageRows, matching.length)

/-- `PromptRepository.FindByID`: `First` by primary key; `ErrRecordNotFound` becomes
the message "prompt not found". -/
def findByID (db : DbState) (id : Nat) : Except String Prompt :=
  match db.failFind with
  | some e => .error e
  | none =>
    match db.rows.find? (fun p => p.id == id) with
    | none => .error "prompt not found"
    | some p => .ok p

/-- `PromptRepository.Create`: `db.Create` runs the `BeforeCreate` hook, assigns the
key and timestamps, and appends the row. -/
def repoCreate (db : DbState) (p : Prompt) : Except String (Prompt × DbState) :=
  match db.failCreate with
  | some e => .error e
  | none =>
    let stored := { p.beforeCreate with
                    id := db.nextId, createdAt := db.now, updatedAt := db.now }
    .ok (stored, { db with rows := db.rows ++ [stored], nextId := db.nextId + 1 })

/-- `PromptRepository.Exists`: count rows with the given key. -/
def repoExists (db : DbState) (id : Nat) : Except String Bool :=
  match db.failExists with
  | some e => .error e
  | none => .ok (db.rows.any (fun p => p.id == id))

/-- `PromptRepository.Delete`: delete by key; zero affected rows is reported as
"prompt not found". -/
def repoDelete (db : DbState) (id : Nat) : Except String DbState :=
  match db.failDelete with
  | some e => .error e
  | none =>
    let remaining := db.rows.filter (fun p => ¬ p.id = id)
    if db.rows.length = remaining.length then .error "prompt not found"
    else .ok { db with rows := remaining }

/-- `PromptRepository.IncrementViewCount`: `UPDATE ... SET view_count = view_count + 1
WHERE id = ?`. -/
def incrementViewCount (db : DbState) (id : Nat) : Except String DbState :=
  match db.failIncrement with
  | some e => .error e
  | none =>
    .ok { db with
          rows := db.rows.map (fun p =>
            if p.id = id then { p with viewCount := p.viewCount + 1 } else p) }

/-! ### Prompt service -/

/-- Response DTO built by `transformToResponse`. -/
structure PromptResponse where
  id : Nat
  title : String
  description : String
  language : String
  difficulty : String
  category : String
  problemStatement : String
  isVerified : Bool
  viewCount : Int
  likeCount : Int
  tags : String
  authorName : String
  createdAt : String
  updatedAt : String
deriving DecidableEq, Repr

/-- Abstraction of the `time.Format` rendering of a timestamp (injective). -/
def formatTimestamp (t : Nat) : String :=
  toString t

/-- `PromptService.transformToResponse`. -/
def transformToResponse (p : Prompt) : PromptResponse :=
  { id := p.id
    title := p.title
    description := p.description
    language := p.language
    difficulty := p.difficulty
    category := p.category
    problemStatement := p.problemStatement
    isVerified := p.isVerified
    viewCount := p.viewCount
    likeCount := p.likeCount
    tags := p.tags
    authorName := p.authorName
    createdAt := formatTimestamp p.createdAt
    updatedAt := formatTimestamp p.updatedAt }

/-- `PaginationPromptResponse`. -/
structure PaginationPromptResponse where
  data : List PromptResponse
  total : Nat
  page : Nat
  limit : Nat
  totalPages : Nat
deriving DecidableEq, Repr

/-- Page actually applied by `GetAllPrompts`: `if page < 1 { page = 1 }`. -/
def appliedPage (page : Int) : Nat :=
  if page < 1 then 1 else page.toNat

/-- Limit actually applied by `GetAllPrompts`: `if limit < 1 || limit > 100 { limit = 10 }`. -/
def appliedLimit (limit : Int) : Nat :=
  if limit < 1 ∨ 100 < limit then 10 else limit.toNat

/-- `PromptService.GetAllPrompts`. -/
def getAllPrompts (db : DbState) (f : PromptFilter) (page limit : Int) :
    Except String PaginationPromptResponse :=
  let p := appliedPage page
  let l := appliedLimit limit
  if f.difficulty ≠ "" ∧ difficultyValid f.difficulty = false then
    .error "invalid difficulty"
  else
    match findAll db f p l with
    | .error e => .error e
    | .ok (prompts, total) =>
      .ok { data := prompts.map transformToResponse
            total := total
            page := p
            limit := l
            totalPages := (total + l - 1) / l }

/-- The work the service hands to a goroutine, modelled as a deferred task. -/
inductive DeferredTask where
  | incrementView (id : Nat)
deriving DecidableEq, Repr

/-- `PromptService.GetPromptByID`: on success the view-count increment is dispatched
as a deferred task; its error, if any, is discarded (`_ = ...IncrementViewCount(id)`). -/
def getPromptByID (db : DbState) (id : Nat) :
    Except String PromptResponse × List DeferredTask :=
  if id = 0 then (.error "invalid prompt id", [])
  else
    match findByID db id with
    | .error e => (.error ("failed to find prompt: " ++ e), [])
    | .ok p => (.ok (transformToResponse p), [DeferredTask.incrementView id])

/-- Executes a deferred task against the store; a failure of the increment is
silently discarded, exactly as the goroutine discards it. -/
def runTask (db : DbState) (t : DeferredTask) : DbState :=
  match t with
  | .incrementView id =>
    match incrementViewCount db id with
    | .error _ => db
    | .ok db2 => db2

/-- `PromptService.validateCreateRequest`.  Go's `len` on the title counts bytes,
hence `utf8ByteSize`. -/
def validateCreateRequest (req : PromptCreateRequest) : Option String :=
  if req.title = "" then some "title is required"
  else if 200 < req.title.utf8ByteSize then some "title must be less than 200 characters"
  else if req.description = "" then some "description is required"
  else if req.language = "" then some "language is required"
  else if req.category = "" then some "category is required"
  else if req.problemStatement = "" then some "problem statement is required"
  else if req.difficulty ≠ "" ∧ difficultyValid req.difficulty = false then
    some "invalid difficulty level"
  else none

/-- `PromptService.CreatePrompt`. -/
def createPrompt (db : DbState) (req : PromptCreateRequest) :
    Except String PromptResponse × DbState :=
  match validateCreateRequest req with
  | some e => (.error e, db)
  | none =>
    match repoCreate db (if req.toPrompt.difficulty = "" then
        { req.toPrompt with difficulty := "beginner" } else req.toPrompt) with
    | .error e => (.error ("failed to create prompt: " ++ e), db)
    | .ok (created, db2) => (.ok (transformToResponse created), db2)

/-- `PromptService.DeletePrompt`. -/
def deletePrompt (db : DbState) (id : Nat) : Except String Unit × DbState :=
  if id = 0 then (.error "invalid prompt id", db)
  else
    match repoExists db id with
    | .error e => (.error ("failed to check if prompt exists: " ++ e), db)
    | .ok false => (.error "prompt not found", db)
    | .ok true =>
      match repoDelete db id with
      | .error e => (.error ("failed to delete prompt: " ++ e), db)
      | .ok db2 => (.ok (), db2)

/-! ### Handler-layer status mapping (prompt handlers) -/

/-- Status code chosen by `PromptHandler.GetPrompts`: every service error is 500. -/
def getPromptsStatus (res : Except String PaginationPromptResponse) : Nat :=
  match res with
  | .ok _ => 200
  | .error _ => 500

/-- Status code chosen by `PromptHandler.GetPromptByID`: every service error is 404. -/
def getPromptByIDStatus (res : Except String PromptResponse) : Nat :=
  match res with
  | .ok _ => 200
  | .error _ => 404

/-- Status code chosen by `PromptHandler.CreatePrompt`: messages containing
"required" or "invalid" give 400, everything else 500. -/
def createPromptStatus (res : Except String PromptResponse) : Nat :=
  match res with
  | .ok _ => 201
  | .error e =>
    if strContains e "required" || strContains e "invalid" then 400 else 500

/-- Status code chosen by `PromptHandler.DeletePrompt`: messages containing
"not found" give 404, everything else 500. -/
def deletePromptStatus (res : Except String Unit) : Nat :=
  match res with
  | .ok _ => 200
  | .error e =>
    if strContains e "not found" then 404 else 500

/-- The delete endpoint end to end: run the service, map the outcome to a status. -/
def deletePromptHandlerStatus (db : DbState) (id : Nat) : Nat :=
  deletePromptStatus (deletePrompt db id).1

/-! ### PromptRequest data model (`internal/models/request.go`) -/

/-- Row of the `prompt_requests` table. -/
structure PromptRequest where
  id : Nat
  createdAt : Nat
  updatedAt : Nat
  requesterName : String
  requesterEmail : String
  requestedTitle : String
  requestedLanguage : String
  requestedDifficulty : String
  requestedCategory : String
  description : String
  specificRequirements : String
  useCase : String
  preferredTopics : String
  status : String
  priority : String
  assignedToID : Option Nat
  assignedBy : Option Nat
  assignedAt : Option Int
  completedPromptID : Option Nat
  completedAt : Option Int
  adminNotes : String
  responseMessage : String
  isUrgent : Bool
  isRejected : Bool
  estimatedHours : Int
deriving DecidableEq, Repr

/-- `RequestStatus.Valid`. -/
def requestStatusValid (s : String) : Bool :=
  s == "pending" || s == "in_review" || s == "approved" || s == "assigned" ||
  s == "in_progress" || s == "completed" || s == "rejected" || s == "on_hold"

/-- `Priority.Valid`. -/
def priorityValid (p : String) : Bool :=
  p == "low" || p == "normal" || p == "high" || p == "urgent"

/-- `PromptRequest.BeforeCreate`: coerce invalid enumerations to their defaults, then
promote a still-normal priority to "high" when the request is urgent.  The hook
always succeeds (the Go hook returns nil unconditionally). -/
def PromptRequest.beforeCreate (pr : PromptRequest) : PromptRequest :=
  let pr := if requestStatusValid pr.status then pr else { pr with status := "pending" }
  let pr := if priorityValid pr.priority then pr else { pr with priority := "normal" }
  let pr := if difficultyValid pr.requestedDifficulty then pr
            else { pr with requestedDifficulty := "beginner" }
  if pr.isUrgent = true ∧ pr.priority = "normal" then { pr with priority := "high" }
  else pr

/-- `PromptRequestCreateRequest` (public form submission). -/
structure PromptRequestCreateRequest where
  requesterName : String
  requesterEmail : String
  requestedTitle : String
  requestedLanguage : String
  requestedDifficulty : String
  requestedCategory : String
  description : String
  specificRequirements : String
  useCase : String
  preferredTopics : String
  isUrgent : Bool
deriving DecidableEq, Repr

/-- `PromptRequestCreateRequest.ToPromptRequest`. -/
def PromptRequestCreateRequest.toPromptRequest (req : PromptRequestCreateRequest) :
    PromptRequest :=
  { id := 0
    createdAt := 0
    updatedAt := 0
    requesterName := req.requesterName
    requesterEmail := req.requesterEmail
    requestedTitle := req.requestedTitle
    requestedLanguage := req.requestedLanguage
    requestedDifficulty := req.requestedDifficulty
    requestedCategory := req.requestedCategory
    description := req.description
    specificRequirements := req.specificRequirements
    useCase := req.useCase
    preferredTopics := req.preferredTopics
    status := "pending"
    priority := if req.isUrgent then "high" else "normal"
    assignedToID := none
    assignedBy := none
    assignedAt := none
    completedPromptID := none
    completedAt := none
    adminNotes := ""
    responseMessage := ""
    isUrgent := req.isUrgent
    isRejected := false
    estimatedHours := 0 }

/-! ### Spec-side predicate and concrete sample data -/

/-- The filter semantics as the specification words them: the conjunction of the
predicates for the non-empty supplied fields; an omitted or empty field imposes no
constraint.  Written from the spec, to be compared against `promptMatches`, which is
written from `applyFilters`. -/
def specFilterPred (f : PromptFilter) (p : Prompt) : Prop :=
  (f.language ≠ "" → p.language = f.language) ∧
  (f.difficulty ≠ "" → p.difficulty = f.difficulty) ∧
  (f.category ≠ "" → p.category = f.category) ∧
  (∀ v, f.isVerified = some v → p.isVerified = v) ∧
  (f.search ≠ "" →
    (strContains p.title.toLower f.search.toLower = true ∨
     strContains p.description.toLower f.search.toLower = true ∨
     strContains p.problemStatement.toLower f.search.toLower = true))

/-- Empty store. -/
def dbEmpty : DbState :=
  { rows := [], nextId := 1, now := 0 }

/-- A concrete stored prompt; row `i` was created at time `i + 1`. -/
def samplePrompt (i : Nat) : Prompt :=
  { id := i + 1
    createdAt := i + 1
    updatedAt := i + 1
    title := "Two Sum"
    description := "classic warm up"
    language := "python"
    difficulty := "beginner"
    category := "algorithms"
    problemStatement := "find the two indices"
    isVerified := false
    verifiedBy := none
    verifiedAt := none
    viewCount := 0
    likeCount := 0
    difficultyVote := 0
    tags := ""
    authorID := none
    authorName := ""
    authorEmail := "" }

/-- Store holding twelve python prompts. -/
def dbTwelve : DbState :=
  { rows := (List.range 12).map samplePrompt, nextId := 13, now := 50 }

/-- Filter on `language=python` only. -/
def pythonFilter : PromptFilter :=
  { language := "python", difficulty := "", category := "", isVerified := none,
    search := "" }

/-- A fully valid create request. -/
def reqBase : PromptCreateRequest :=
  { title := "Two Sum"
    description := "classic warm up"
    language := "go"
    difficulty := "advanced"
    category := "algorithms"
    problemStatement := "find the two indices"
    examples := ""
    hints := ""
    tags := ""
    estimatedTime := 0
    authorName := ""
    authorEmail := "" }

/-- Create request whose title is empty. -/
def reqEmptyTitle : PromptCreateRequest :=
  { reqBase with title := "" }

/-- Create request carrying a difficulty outside the enumeration. -/
def reqBogusDifficulty : PromptCreateRequest :=
  { reqBase with difficulty := "bogus" }

/-- Create request with the difficulty left empty. -/
def reqNoDifficulty : PromptCreateRequest :=
  { reqBase with difficulty := "" }

/-- Store holding the single prompt with id 1. -/
def dbOne : DbState :=
  { rows := [samplePrompt 0], nextId := 2, now := 9 }

/-- `dbOne` with the existence check failing. -/
def dbFailExists : DbState :=
  { dbOne with failExists := some "connection reset" }

/-- `dbOne` with the delete failing. -/
def dbFailDelete : DbState :=
  { dbOne with failDelete := some "connection reset" }

/-- `dbOne` with the view-count increment failing. -/
def dbFailIncrement : DbState :=
  { dbOne with failIncrement := some "connection reset" }

/-- An urgent request whose priority is still "normal". -/
def prUrgentNormal : PromptRequest :=
  { id := 0
    createdAt := 0
    updatedAt := 0
    requesterName := "Ana"
    requesterEmail := "ana@example.com"
    requestedTitle := "Graphs"
    requestedLanguage := "go"
    requestedDifficulty := "beginner"
    requestedCategory := "algorithms"
    description := "please add graph prompts"
    specificRequirements := ""
    useCase := ""
    preferredTopics := ""
    status := "pending"
    priority := "normal"
    assignedToID := none
    assignedBy := none
    assignedAt := none
    completedPromptID := none
    completedAt := none
    adminNotes := ""
    responseMessage := ""
    isUrgent := true
    isRejected := false
    estimatedHours := 0 }

/-- A request whose enumerated fields are all outside their enumerations. -/
def prInvalidAll : PromptRequest :=
  { prUrgentNormal with
    status := "bogus"
    priority := "bogus"
    requestedDifficulty := "bogus"
    isUrgent := false }

/-- An urgent form submission with no explicit priority field (the form has none). -/
def reqUrgent : PromptRequestCreateRequest :=
  { requesterName := "Ana"
    requesterEmail := "ana@example.com"
    requestedTitle := "Graphs"
    requestedLanguage := "go"
    requestedDifficulty := "beginner"
    requestedCategory := "algorithms"
    description := "please add graph prompts"
    specificRequirements := ""
    useCase := ""
    preferredTopics := ""
    isUrgent := true }

/-- `reqBase` with one choice of the discarded payload fields. -/
def reqExtrasA : PromptCreateRequest :=
  { reqBase with
    examples := "example block A"
    hints := "hint A"
    estimatedTime := 5 }

/-- `reqBase` with a different choice of the discarded payload fields. -/
def reqExtrasB : PromptCreateRequest :=
  { reqBase with
    examples := "example block B"
    hints := "hint B"
    estimatedTime := 90 }

/-! ### Helper lemmas -/

lemma mem_sortByCreatedDesc {p : Prompt} {l : List Prompt} :
    p ∈ sortByCreatedDesc l ↔ p ∈ l :=
  (List.perm_insertionSort createdDescRel l).mem_iff

lemma sorted_sortByCreatedDesc (l : List Prompt) :
    (sortByCreatedDesc l).Sorted createdDescRel :=
  List.sorted_insertionSort createdDescRel l

lemma sorted_slice (l : List Prompt) (n m : Nat) :
    (((sortByCreatedDesc l).drop n).take m).Sorted createdDescRel :=
  List.Pairwise.sublist ((List.take_sublist _ _).trans (List.drop_sublist _ _))
    (sorted_sortByCreatedDesc l)

lemma mem_slice_filtered {db : DbState} {f : PromptFilter} {n m : Nat} {q : Prompt}
    (hq : q ∈ ((sortByCreatedDesc (filteredRows db f)).drop n).take m) :
    q ∈ db.rows ∧ promptMatches f q = true := by
  have h1 : q ∈ sortByCreatedDesc (filteredRows db f) :=
    ((List.take_sublist _ _).trans (List.drop_sublist _ _)).subset hq
  exact List.mem_filter.mp (mem_sortByCreatedDesc.mp h1)

lemma promptMatches_iff_specFilterPred (f : PromptFilter) (p : Prompt) :
    promptMatches f p = true ↔ specFilterPred f p := by
  unfold promptMatches specFilterPred
  cases hv : f.isVerified <;>
    simp [Bool.and_eq_true, Bool.or_eq_true, beq_iff_eq, or_iff_not_imp_left] <;>
    tauto

lemma getAllPrompts_ok (db : DbState) (f : PromptFilter) (page limit : Int)
    (hc : db.failCount = none) (hf : db.failFind = none)
    (hguard : ¬ (f.difficulty ≠ "" ∧ difficultyValid f.difficulty = false)) :
    getAllPrompts db f page limit = .ok
      { data := (((sortByCreatedDesc (filteredRows db f)).drop
            ((appliedPage page - 1) * appliedLimit limit)).take
            (appliedLimit limit)).map transformToResponse
        total := (filteredRows db f).length
        page := appliedPage page
        limit := appliedLimit limit
        totalPages := ((filteredRows db f).length + appliedLimit limit - 1) /
          appliedLimit limit } := by
  simp only [getAllPrompts, findAll, hc, hf, if_neg hguard]

lemma getAllPrompts_ok_inv {db : DbState} {f : PromptFilter} {page limit : Int}
    {resp : PaginationPromptResponse}
    (h : getAllPrompts db f page limit = .ok resp) :
    resp.limit = appliedLimit limit ∧
    resp.totalPages = (resp.total + resp.limit - 1) / resp.limit := by
  simp only [getAllPrompts] at h
  split at h
  · cases h
  · split at h
    · cases h
    · cases h
      exact ⟨rfl, rfl⟩

lemma appliedLimit_pos (limit : Int) : 0 < appliedLimit limit := by
  unfold appliedLimit
  split <;> omega

lemma ceilDivRat (total limit : Nat) (h : 0 < limit) :
    (total + limit - 1) / limit = ⌈(total : ℚ) / (limit : ℚ)⌉₊ := by
  rcases Nat.eq_zero_or_pos total with h0 | h0
  · subst h0
    simp [Nat.div_eq_of_lt (Nat.sub_lt h Nat.one_pos)]
  · have hn : (total + limit - 1) / limit ≠ 0 := by
      have h1 : limit ≤ total + limit - 1 := by omega
      have := Nat.div_le_div_right (c := limit) h1
      rw [Nat.div_self h] at this
      omega
    rw [eq_comm, Nat.ceil_eq_iff hn]
    set n := (total + limit - 1) / limit with hdef
    have hn1 : 1 ≤ n := Nat.one_le_iff_ne_zero.mpr hn
    have hub : n * limit ≤ total + limit - 1 := Nat.div_mul_le_self _ _
    have hlb : total + limit - 1 < (n + 1) * limit :=
      (Nat.div_lt_iff_lt_mul h).mp (Nat.lt_succ_self n)
    have hle : total ≤ n * limit := by
      rw [Nat.add_mul, Nat.one_mul] at hlb
      omega
    have hlt : (n - 1) * limit < total := by
      rw [Nat.sub_mul, Nat.one_mul]
      omega
    have hq : (0 : ℚ) < (limit : ℚ) := by exact_mod_cast h
    constructor
    · rw [lt_div_iff₀ hq]
      exact_mod_cast hlt
    · rw [div_le_iff₀ hq]
      exact_mod_cast hle

/-! ### Claims -/

/-- Claim C1: for every combination of filter fields, a row is in the filtered
result set exactly when it is a stored row satisfying the conjunction of the
predicates for the non-empty supplied fields — language, difficulty and category as
exact equality, the verification flag as equality only when explicitly present, and
search as a case-insensitive substring match against title OR description OR
problem statement — while an omitted or empty field imposes no constraint. -/
theorem filter_composition_exact (db : DbState) (f : PromptFilter) (p : Prompt) :
    p ∈ filteredRows db f ↔ p ∈ db.rows ∧ specFilterPred f p := by
  rw [filteredRows, List.mem_filter]
  exact and_congr_right fun _ => promptMatches_iff_specFilterPred f p

/-- Claim C2: for every list request (with working storage and a well-formed
difficulty filter), the applied page is 1 when the requested page is below 1 and the
requested page otherwise, the applied limit is 10 when the requested limit is outside
[1,100] and the requested limit otherwise, and the returned page consists of matching
rows ordered by creation time descending, starting at offset (page−1)×limit, holding
at most limit rows, while the returned total counts all matching rows ignoring
pagination. -/
theorem list_request_pagination (db : DbState) (f : PromptFilter) (page limit : Int)
    (hc : db.failCount = none) (hf : db.failFind = none)
    (hd : f.difficulty = "" ∨ difficultyValid f.difficulty = true) :
    ∃ resp pageRows,
      getAllPrompts db f page limit = Except.ok resp ∧
      (page < 1 → resp.page = 1) ∧
      (1 ≤ page → (resp.page : Int) = page) ∧
      ((limit < 1 ∨ 100 < limit) → resp.limit = 10) ∧
      (1 ≤ limit → limit ≤ 100 → (resp.limit : Int) = limit) ∧
      resp.total = (filteredRows db f).length ∧
      pageRows = ((sortByCreatedDesc (filteredRows db f)).drop
        ((resp.page - 1) * resp.limit)).take resp.limit ∧
      resp.data = pageRows.map transformToResponse ∧
      pageRows.length ≤ resp.limit ∧
      pageRows.Sorted createdDescRel ∧
      (∀ q ∈ pageRows, q ∈ db.rows ∧ promptMatches f q = true) := by
  have hguard : ¬ (f.difficulty ≠ "" ∧ difficultyValid f.difficulty = false) := by
    rcases hd with hd | hd <;> simp [hd]
  refine ⟨_, _, getAllPrompts_ok db f page limit hc hf hguard,
    ?_, ?_, ?_, ?_, rfl, rfl, rfl, ?_, sorted_slice _ _ _, ?_⟩
  · intro h
    show appliedPage page = 1
    rw [appliedPage, if_pos h]
  · intro h
    show ((appliedPage page : Nat) : Int) = page
    rw [appliedPage, if_neg (by omega)]
    omega
  · intro h
    show appliedLimit limit = 10
    rw [appliedLimit, if_pos h]
  · intro h1 h2
    show ((appliedLimit limit : Nat) : Int) = limit
    rw [appliedLimit, if_neg (by omega)]
    omega
  · show (List.take _ _).length ≤ appliedLimit limit
    rw [List.length_take]
    exact min_le_left _ _
  · intro q hq
    exact mem_slice_filtered hq

/-- Claim C3: for every successful list request, total_pages equals
ceil(total / limit) computed with the applied limit; in particular 12 matching rows
with limit 5 and page 2 yield 5 rows — the 6th to 10th in creation-descending order
(stored ids 7,6,5,4,3) — and total_pages = 3. -/
theorem total_pages_is_ceiling :
    (∀ (db : DbState) (f : PromptFilter) (page limit : Int)
      (resp : PaginationPromptResponse),
      getAllPrompts db f page limit = Except.ok resp →
      resp.totalPages = ⌈(resp.total : ℚ) / (resp.limit : ℚ)⌉₊) ∧
    (∃ resp, getAllPrompts dbTwelve pythonFilter 2 5 = Except.ok resp ∧
      resp.data.length = 5 ∧
      resp.data.map (fun r => r.id) = [7, 6, 5, 4, 3] ∧
      resp.total = 12 ∧
      resp.totalPages = 3) := by
  constructor
  · intro db f page limit resp h
    obtain ⟨hl, ht⟩ := getAllPrompts_ok_inv h
    have hpos : 0 < resp.limit := hl ▸ appliedLimit_pos limit
    rw [ht, ceilDivRat resp.total resp.limit hpos]
  · exact ⟨_, rfl, by decide, by decide, by decide, by decide⟩

/-- Witness for C2 at a concrete store and request: twelve stored rows, page −3
(clamped to 1) and limit 200 (clamped to 10). -/
theorem list_request_pagination_witness :
    ∃ resp pageRows,
      getAllPrompts dbTwelve pythonFilter (-3) 200 = Except.ok resp ∧
      ((-3 : Int) < 1 → resp.page = 1) ∧
      (1 ≤ (-3 : Int) → (resp.page : Int) = -3) ∧
      (((200 : Int) < 1 ∨ 100 < (200 : Int)) → resp.limit = 10) ∧
      (1 ≤ (200 : Int) → (200 : Int) ≤ 100 → (resp.limit : Int) = 200) ∧
      resp.total = (filteredRows dbTwelve pythonFilter).length ∧
      pageRows = ((sortByCreatedDesc (filteredRows dbTwelve pythonFilter)).drop
        ((resp.page - 1) * resp.limit)).take resp.limit ∧
      resp.data = pageRows.map transformToResponse ∧
      pageRows.length ≤ resp.limit ∧
      pageRows.Sorted createdDescRel ∧
      (∀ q ∈ pageRows, q ∈ dbTwelve.rows ∧ promptMatches pythonFilter q = true) :=
  list_request_pagination dbTwelve pythonFilter (-3) 200 rfl rfl (Or.inl rfl)

/-- Witness for C3: the general ceiling law applied at the concrete example call. -/
theorem total_pages_is_ceiling_witness :
    ∃ resp, getAllPrompts dbTwelve pythonFilter 2 5 = Except.ok resp ∧
      resp.totalPages = ⌈(resp.total : ℚ) / (resp.limit : ℚ)⌉₊ :=
  ⟨_, rfl, total_pages_is_ceiling.1 dbTwelve pythonFilter 2 5 _ rfl⟩

lemma validate_none_inv {req : PromptCreateRequest}
    (h : validateCreateRequest req = none) :
    ¬ req.title = "" ∧ ¬ 200 < req.title.utf8ByteSize ∧ ¬ req.description = "" ∧
    ¬ req.language = "" ∧ ¬ req.category = "" ∧ ¬ req.problemStatement = "" := by
  unfold validateCreateRequest at h
  split at h
  · cases h
  · split at h
    · cases h
    · split at h
      · cases h
      · split at h
        · cases h
        · split at h
          · cases h
          · split at h
            · cases h
            · split at h
              · cases h
              · rename_i h1 h2 h3 h4 h5 h6 h7
                exact ⟨h1, h2, h3, h4, h5, h6⟩

/-- Claim C4: CreatePrompt returns a validation error and persists no record when a
required field is empty or the title exceeds 200 bytes; an empty title yields the
error "title is required"; with the required fields present, a non-empty difficulty
outside the enumeration yields a validation error containing "invalid" and persists
nothing; an empty difficulty is stored as "beginner". -/
theorem create_prompt_validation (db : DbState) (req : PromptCreateRequest) :
    ((req.title = "" ∨ 200 < req.title.utf8ByteSize ∨ req.description = "" ∨
      req.language = "" ∨ req.category = "" ∨ req.problemStatement = "") →
      ∃ e, createPrompt db req = (Except.error e, db)) ∧
    (req.title = "" → createPrompt db req = (Except.error "title is required", db)) ∧
    (req.title ≠ "" → req.title.utf8ByteSize ≤ 200 → req.description ≠ "" →
     req.language ≠ "" → req.category ≠ "" → req.problemStatement ≠ "" →
     req.difficulty ≠ "" → difficultyValid req.difficulty = false →
      createPrompt db req = (Except.error "invalid difficulty level", db) ∧
      strContains "invalid difficulty level" "invalid" = true) ∧
    (req.title ≠ "" → req.title.utf8ByteSize ≤ 200 → req.description ≠ "" →
     req.language ≠ "" → req.category ≠ "" → req.problemStatement ≠ "" →
     req.difficulty = "" → db.failCreate = none →
      ∃ p db2, createPrompt db req = (Except.ok (transformToResponse p), db2) ∧
        p.difficulty = "beginner" ∧ db2.rows = db.rows ++ [p]) := by
  refine ⟨?_, ?_, ?_, ?_⟩
  · intro h
    cases hv : validateCreateRequest req with
    | some e =>
      exact ⟨e, by simp [createPrompt, hv]⟩
    | none =>
      obtain ⟨g1, g2, g3, g4, g5, g6⟩ := validate_none_inv hv
      tauto
  · intro h1
    have hv : validateCreateRequest req = some "title is required" := by
      rw [validateCreateRequest, if_pos h1]
    simp [createPrompt, hv]
  · intro h1 h2 h3 h4 h5 h6 h7 h8
    have hv : validateCreateRequest req = some "invalid difficulty level" := by
      rw [validateCreateRequest, if_neg h1, if_neg (by omega), if_neg h3, if_neg h4,
          if_neg h5, if_neg h6, if_pos ⟨h7, h8⟩]
    exact ⟨by simp [createPrompt, hv], by decide⟩
  · intro h1 h2 h3 h4 h5 h6 hd hfc
    have hv : validateCreateRequest req = none := by
      rw [validateCreateRequest, if_neg h1, if_neg (by omega), if_neg h3, if_neg h4,
          if_neg h5, if_neg h6, if_neg (by simp [hd])]
    refine ⟨{ req.toPrompt with
              difficulty := "beginner",
              id := db.nextId,
              createdAt := db.now,
              updatedAt := db.now },
            { db with
              rows := db.rows ++ [{ req.toPrompt with
                difficulty := "beginner",
                id := db.nextId,
                createdAt := db.now,
                updatedAt := db.now }],
              nextId := db.nextId + 1 }, ?_, rfl, rfl⟩
    simp [createPrompt, hv, repoCreate, hfc, Prompt.beforeCreate,
      PromptCreateRequest.toPrompt, difficultyValid, hd]

/-- Witness for C4 at concrete requests: an empty title, a difficulty outside the
enumeration, and an empty difficulty. -/
theorem create_prompt_validation_witness :
    (∃ e, createPrompt dbEmpty reqEmptyTitle = (Except.error e, dbEmpty)) ∧
    createPrompt dbEmpty reqEmptyTitle = (Except.error "title is required", dbEmpty) ∧
    (createPrompt dbEmpty reqBogusDifficulty =
        (Except.error "invalid difficulty level", dbEmpty) ∧
      strContains "invalid difficulty level" "invalid" = true) ∧
    (∃ p db2, createPrompt dbEmpty reqNoDifficulty =
        (Except.ok (transformToResponse p), db2) ∧
      p.difficulty = "beginner" ∧ db2.rows = dbEmpty.rows ++ [p]) := by
  refine ⟨(create_prompt_validation dbEmpty reqEmptyTitle).1 (Or.inl rfl),
          (create_prompt_validation dbEmpty reqEmptyTitle).2.1 rfl,
          (create_prompt_validation dbEmpty reqBogusDifficulty).2.2.1
            (by decide) (by decide) (by decide) (by decide) (by decide) (by decide)
            (by decide) (by decide),
          (create_prompt_validation dbEmpty reqNoDifficulty).2.2.2
            (by decide) (by decide) (by decide) (by decide) (by decide) (by decide)
            rfl rfl⟩

lemma beforeCreate_difficulty_valid (p : Prompt) :
    difficultyValid (Prompt.beforeCreate p).difficulty = true := by
  unfold Prompt.beforeCreate
  split
  · assumption
  · rfl

lemma createPrompt_rows (db : DbState) (req : PromptCreateRequest) :
    (createPrompt db req).2.rows = db.rows ∨
    ∃ stored, (createPrompt db req).2.rows = db.rows ++ [stored] ∧
      difficultyValid stored.difficulty = true := by
  unfold createPrompt
  split
  · exact Or.inl rfl
  · split
    · exact Or.inl rfl
    · rename_i created db2 heq
      refine Or.inr ?_
      unfold repoCreate at heq
      split at heq
      · cases heq
      · cases heq
        exact ⟨_, rfl, beforeCreate_difficulty_valid _⟩

/-- Claim C5 counterexample: a create request carrying the out-of-enumeration
difficulty "bogus" is rejected by CreatePrompt with a validation error and nothing
is stored — so an invalid difficulty supplied at creation is not coerced to
"beginner" and does cause the creation to be rejected. -/
theorem invalid_difficulty_rejected_counterexample :
    (createPrompt dbEmpty reqBogusDifficulty).1 =
      Except.error "invalid difficulty level" ∧
    (createPrompt dbEmpty reqBogusDifficulty).2 = dbEmpty := by
  constructor <;> rfl

/-- Claim C5 (amended): an empty difficulty never triggers the invalid-difficulty
rejection; the model-layer BeforeCreate hook coerces any invalid difficulty to
"beginner" without erroring; and every row CreatePrompt adds to the store carries
one of the four enumerated difficulty values.  (An invalid non-empty difficulty is,
however, rejected at the service layer rather than coerced.) -/
theorem stored_difficulty_always_valid (p : Prompt) (db : DbState)
    (req : PromptCreateRequest) :
    difficultyValid (Prompt.beforeCreate p).difficulty = true ∧
    (req.difficulty = "" →
      validateCreateRequest req ≠ some "invalid difficulty level") ∧
    (∀ q ∈ (createPrompt db req).2.rows,
      q ∈ db.rows ∨ difficultyValid q.difficulty = true) := by
  refine ⟨beforeCreate_difficulty_valid p, ?_, ?_⟩
  · intro hd h
    unfold validateCreateRequest at h
    split at h
    · exact absurd (Option.some.inj h) (by decide)
    · split at h
      · exact absurd (Option.some.inj h) (by decide)
      · split at h
        · exact absurd (Option.some.inj h) (by decide)
        · split at h
          · exact absurd (Option.some.inj h) (by decide)
          · split at h
            · exact absurd (Option.some.inj h) (by decide)
            · split at h
              · exact absurd (Option.some.inj h) (by decide)
              · split at h
                · rename_i hcond
                  exact hcond.1 hd
                · cases h
  · intro q hq
    rcases createPrompt_rows db req with h | ⟨stored, h, hvalid⟩
    · rw [h] at hq
      exact Or.inl hq
    · rw [h] at hq
      rcases List.mem_append.mp hq with h2 | h2
      · exact Or.inl h2
      · have h3 := List.mem_singleton.mp h2
        subst h3
        exact Or.inr hvalid

/-- Witness for C5 (amended), at the empty store and a request with empty
difficulty; the created row is evaluated concretely. -/
theorem stored_difficulty_always_valid_witness :
    difficultyValid (Prompt.beforeCreate (samplePrompt 0)).difficulty = true ∧
    validateCreateRequest reqNoDifficulty ≠ some "invalid difficulty level" ∧
    ((createPrompt dbEmpty reqNoDifficulty).2.rows =
      [{ reqNoDifficulty.toPrompt with
         difficulty := "beginner"
         id := 1
         createdAt := 0
         updatedAt := 0 }] ∧
     ({ reqNoDifficulty.toPrompt with
        difficulty := "beginner"
        id := 1
        createdAt := 0
        updatedAt := 0 } ∈ dbEmpty.rows ∨
      difficultyValid ({ reqNoDifficulty.toPrompt with
        difficulty := "beginner"
        id := 1
        createdAt := 0
        updatedAt := 0 } : Prompt).difficulty = true)) := by
  refine ⟨(stored_difficulty_always_valid (samplePrompt 0) dbEmpty reqNoDifficulty).1,
          (stored_difficulty_always_valid (samplePrompt 0) dbEmpty
            reqNoDifficulty).2.1 rfl,
          rfl,
          (stored_difficulty_always_valid (samplePrompt 0) dbEmpty
            reqNoDifficulty).2.2 _ (by decide)⟩

lemma wrapped_error_ne (pre e : String)
    (h : "prompt not found".length < pre.length) : pre ++ e ≠ "prompt not found" := by
  intro heq
  have hlen := congrArg String.length heq
  rw [String.length_append] at hlen
  omega

/-- Claim C6: DeletePrompt verifies existence first — a nonexistent id yields the
not-found error and leaves the store unchanged; an existing id is removed and a
subsequent fetch of it returns not-found; a storage failure during the existence
check or the delete is reported as an error distinct from the not-found error. -/
theorem delete_prompt_semantics (db : DbState) (id : Nat) :
    (id ≠ 0 → db.failExists = none → (∀ p ∈ db.rows, p.id ≠ id) →
      deletePrompt db id = (Except.error "prompt not found", db)) ∧
    (id ≠ 0 → db.failExists = none → db.failDelete = none →
      (∃ p ∈ db.rows, p.id = id) →
      ∃ db2, deletePrompt db id = (Except.ok (), db2) ∧
        (∀ p ∈ db2.rows, p.id ≠ id) ∧
        (db.failFind = none → findByID db2 id = Except.error "prompt not found")) ∧
    (∀ e, id ≠ 0 → db.failExists = some e →
      deletePrompt db id =
        (Except.error ("failed to check if prompt exists: " ++ e), db) ∧
      "failed to check if prompt exists: " ++ e ≠ "prompt not found") ∧
    (∀ e, id ≠ 0 → db.failExists = none → db.failDelete = some e →
      (∃ p ∈ db.rows, p.id = id) →
      deletePrompt db id = (Except.error ("failed to delete prompt: " ++ e), db) ∧
      "failed to delete prompt: " ++ e ≠ "prompt not found") := by
  refine ⟨?_, ?_, ?_, ?_⟩
  · intro h0 hfe hnone
    have hany : db.rows.any (fun p => p.id == id) = false := by
      rw [List.any_eq_false]
      intro p hp
      simp [hnone p hp]
    simp [deletePrompt, h0, repoExists, hfe, hany]
  · rintro h0 hfe hfd ⟨p0, hp0, hpid⟩
    have hany : db.rows.any (fun p => p.id == id) = true :=
      List.any_eq_true.mpr ⟨p0, hp0, by simp [hpid]⟩
    have hlt : (db.rows.filter (fun p => ¬ p.id = id)).length < db.rows.length :=
      List.length_filter_lt_length_iff_exists.mpr ⟨p0, hp0, by simp [hpid]⟩
    refine ⟨{ db with rows := db.rows.filter (fun p => ¬ p.id = id) }, ?_, ?_, ?_⟩
    · simp only [deletePrompt, repoExists, repoDelete, hfe, hfd, hany, if_neg h0]
      rw [if_neg (by omega)]
    · intro p hp
      have := List.mem_filter.mp hp
      simpa using this.2
    · intro hff
      have hfind : (db.rows.filter (fun p => ¬ p.id = id)).find?
          (fun p => p.id == id) = none := by
        rw [List.find?_eq_none]
        intro p hp
        have := List.mem_filter.mp hp
        simpa using this.2
      simp [findByID, hff, hfind]
      rw [List.find?_eq_none.mpr (fun p _ => by simp)]
  · intro e h0 hfe
    refine ⟨?_, wrapped_error_ne _ _ (by decide)⟩
    simp [deletePrompt, h0, repoExists, hfe]
  · rintro e h0 hfe hfd ⟨p0, hp0, hpid⟩
    have hany : db.rows.any (fun p => p.id == id) = true :=
      List.any_eq_true.mpr ⟨p0, hp0, by simp [hpid]⟩
    refine ⟨?_, wrapped_error_ne _ _ (by decide)⟩
    simp [deletePrompt, h0, repoExists, repoDelete, hfe, hfd, hany]

/-- Witness for C6: the store with the single prompt id 1 — deleting id 2 reports
not-found, deleting id 1 removes it, and injected storage failures are reported
distinctly from not-found. -/
theorem delete_prompt_semantics_witness :
    deletePrompt dbOne 2 = (Except.error "prompt not found", dbOne) ∧
    (∃ db2, deletePrompt dbOne 1 = (Except.ok (), db2) ∧
      (∀ p ∈ db2.rows, p.id ≠ 1) ∧
      (dbOne.failFind = none → findByID db2 1 = Except.error "prompt not found")) ∧
    (deletePrompt dbFailExists 1 =
        (Except.error ("failed to check if prompt exists: " ++ "connection reset"),
         dbFailExists) ∧
      "failed to check if prompt exists: " ++ "connection reset" ≠
        "prompt not found") ∧
    (deletePrompt dbFailDelete 1 =
        (Except.error ("failed to delete prompt: " ++ "connection reset"),
         dbFailDelete) ∧
      "failed to delete prompt: " ++ "connection reset" ≠ "prompt not found") := by
  refine ⟨(delete_prompt_semantics dbOne 2).1 (by decide) rfl (by decide),
          (delete_prompt_semantics dbOne 1).2.1 (by decide) rfl rfl
            ⟨samplePrompt 0, by decide, rfl⟩,
          (delete_prompt_semantics dbFailExists 1).2.2.1 "connection reset"
            (by decide) rfl,
          (delete_prompt_semantics dbFailDelete 1).2.2.2 "connection reset"
            (by decide) rfl rfl ⟨samplePrompt 0, by decide, rfl⟩⟩

/-- Claim C7 counterexample: at the delete endpoint the service error
"invalid prompt id" (raised for id 0) contains "invalid" yet is mapped to status
500, not to the 400 the claim requires of every prompt endpoint. -/
theorem handler_status_mapping_counterexample :
    (deletePrompt dbEmpty 0).1 = Except.error "invalid prompt id" ∧
    strContains "invalid prompt id" "invalid" = true ∧
    deletePromptHandlerStatus dbEmpty 0 = 500 ∧
    deletePromptHandlerStatus dbEmpty 0 ≠ 400 := by
  refine ⟨rfl, by decide, rfl, by decide⟩

/-- Claim C7 (amended): the substring-based mapping holds only per endpoint as each
handler implements it — the create endpoint maps errors containing "required" or
"invalid" to 400 and all others to 500; the delete endpoint maps errors containing
"not found" to 404 and all others to 500; the fetch-by-id endpoint maps every
service error to 404; the list endpoint maps every service error to 500. -/
theorem handler_status_mapping (e : String) :
    createPromptStatus (Except.error e) =
      (if strContains e "required" = true ∨ strContains e "invalid" = true
       then 400 else 500) ∧
    deletePromptStatus (Except.error e) =
      (if strContains e "not found" = true then 404 else 500) ∧
    getPromptByIDStatus (Except.error e) = 404 ∧
    getPromptsStatus (Except.error e) = 500 := by
  refine ⟨?_, ?_, rfl, rfl⟩
  · by_cases h1 : strContains e "required" = true <;>
      by_cases h2 : strContains e "invalid" = true <;>
        simp [createPromptStatus, h1, h2]
  · by_cases h : strContains e "not found" = true <;>
      simp [deletePromptStatus, h]

lemma beforeCreate_request_valid (pr : PromptRequest) :
    requestStatusValid (PromptRequest.beforeCreate pr).status = true ∧
    priorityValid (PromptRequest.beforeCreate pr).priority = true ∧
    difficultyValid (PromptRequest.beforeCreate pr).requestedDifficulty = true := by
  unfold PromptRequest.beforeCreate
  by_cases hs : requestStatusValid pr.status <;>
    by_cases hp : priorityValid pr.priority <;>
      by_cases hd : difficultyValid pr.requestedDifficulty <;>
        simp [hs, hp, hd] <;>
          split <;>
            simp_all [requestStatusValid, priorityValid, difficultyValid]

/-- Claim C8: a PromptRequest created urgent while its priority is still "normal"
(including when the supplied priority was invalid and was first coerced to
"normal", and including the public form path, which never carries a priority) is
stored with priority "high"; and at creation invalid status, priority and
difficulty values are coerced to their defaults — "pending", "normal" (absent the
urgency promotion), "beginner" — rather than rejected, the hook always producing
enumerated values. -/
theorem urgent_priority_promotion (pr : PromptRequest)
    (req : PromptRequestCreateRequest) :
    (pr.isUrgent = true →
      (priorityValid pr.priority = false ∨ pr.priority = "normal") →
      (PromptRequest.beforeCreate pr).priority = "high") ∧
    (req.isUrgent = true → req.toPromptRequest.priority = "high") ∧
    (requestStatusValid (PromptRequest.beforeCreate pr).status = true ∧
     priorityValid (PromptRequest.beforeCreate pr).priority = true ∧
     difficultyValid (PromptRequest.beforeCreate pr).requestedDifficulty = true) ∧
    (requestStatusValid pr.status = false →
      (PromptRequest.beforeCreate pr).status = "pending") ∧
    (difficultyValid pr.requestedDifficulty = false →
      (PromptRequest.beforeCreate pr).requestedDifficulty = "beginner") ∧
    (priorityValid pr.priority = false → pr.isUrgent = false →
      (PromptRequest.beforeCreate pr).priority = "normal") := by
  refine ⟨?_, ?_, beforeCreate_request_valid pr, ?_, ?_, ?_⟩
  · intro hu hp
    unfold PromptRequest.beforeCreate
    rcases hp with hp | hp <;>
      by_cases hs : requestStatusValid pr.status <;>
        by_cases hd : difficultyValid pr.requestedDifficulty <;>
          simp_all [priorityValid]
  · intro hu
    simp [PromptRequestCreateRequest.toPromptRequest, hu]
  · intro hs
    unfold PromptRequest.beforeCreate
    by_cases hp : priorityValid pr.priority <;>
      by_cases hd : difficultyValid pr.requestedDifficulty <;>
        simp_all [requestStatusValid] <;> split <;> simp_all
  · intro hd
    unfold PromptRequest.beforeCreate
    by_cases hs : requestStatusValid pr.status <;>
      by_cases hp : priorityValid pr.priority <;>
        simp_all [difficultyValid] <;> split <;> simp_all
  · intro hp hu
    unfold PromptRequest.beforeCreate
    by_cases hs : requestStatusValid pr.status <;>
      by_cases hd : difficultyValid pr.requestedDifficulty <;>
        simp_all [priorityValid]

/-- Witness for C8: an urgent request left at "normal" is promoted to "high"; the
urgent form submission is stored "high"; a request carrying invalid enumerations is
coerced to the defaults. -/
theorem urgent_priority_promotion_witness :
    (PromptRequest.beforeCreate prUrgentNormal).priority = "high" ∧
    reqUrgent.toPromptRequest.priority = "high" ∧
    requestStatusValid (PromptRequest.beforeCreate prInvalidAll).status = true ∧
    (PromptRequest.beforeCreate prInvalidAll).status = "pending" ∧
    (PromptRequest.beforeCreate prInvalidAll).requestedDifficulty = "beginner" ∧
    (PromptRequest.beforeCreate prInvalidAll).priority = "normal" := by
  refine ⟨(urgent_priority_promotion prUrgentNormal reqUrgent).1 rfl (Or.inr rfl),
          (urgent_priority_promotion prUrgentNormal reqUrgent).2.1 rfl,
          (urgent_priority_promotion prInvalidAll reqUrgent).2.2.1.1,
          (urgent_priority_promotion prInvalidAll reqUrgent).2.2.2.1 rfl,
          (urgent_priority_promotion prInvalidAll reqUrgent).2.2.2.2.1 rfl,
          (urgent_priority_promotion prInvalidAll reqUrgent).2.2.2.2.2 rfl rfl⟩

/-- Claim C9: a successful fetch dispatches exactly one view-count increment task
for the fetched id; the response is the transform of the stored row, computed
independently of the increment — in particular it is unchanged when the increment
is bound to fail; executing the task raises the view count of exactly the rows with
that id by one; and a failing increment leaves the store unchanged and its error is
discarded, never propagated to the caller. -/
theorem view_count_increment_async (db : DbState) (id : Nat) :
    (∀ r, (getPromptByID db id).1 = Except.ok r →
      (getPromptByID db id).2 = [DeferredTask.incrementView id]) ∧
    (∀ p, id ≠ 0 → findByID db id = Except.ok p →
      (getPromptByID db id).1 = Except.ok (transformToResponse p)) ∧
    (db.failIncrement = none →
      (runTask db (DeferredTask.incrementView id)).rows =
        db.rows.map (fun p =>
          if p.id = id then { p with viewCount := p.viewCount + 1 } else p)) ∧
    (∀ e, db.failIncrement = some e →
      runTask db (DeferredTask.incrementView id) = db) ∧
    (∀ e, getPromptByID { db with failIncrement := some e } id =
      getPromptByID db id) := by
  refine ⟨?_, ?_, ?_, ?_, ?_⟩
  · intro r h
    by_cases h0 : id = 0
    · simp [getPromptByID, h0] at h
    · cases hf : findByID db id with
      | error e => simp [getPromptByID, h0, hf] at h
      | ok p => simp [getPromptByID, h0, hf]
  · intro p h0 hf
    simp [getPromptByID, h0, hf]
  · intro h
    simp [runTask, incrementViewCount, h]
  · intro e h
    simp [runTask, incrementViewCount, h]
  · intro e
    rfl

/-- Witness for C9 at the one-row store and id 1, with a fault-injected variant for
the increment. -/
theorem view_count_increment_async_witness :
    (getPromptByID dbOne 1).2 = [DeferredTask.incrementView 1] ∧
    (getPromptByID dbOne 1).1 = Except.ok (transformToResponse (samplePrompt 0)) ∧
    (runTask dbOne (DeferredTask.incrementView 1)).rows =
      dbOne.rows.map (fun p =>
        if p.id = 1 then { p with viewCount := p.viewCount + 1 } else p) ∧
    runTask dbFailIncrement (DeferredTask.incrementView 1) = dbFailIncrement ∧
    getPromptByID { dbOne with failIncrement := some "connection reset" } 1 =
      getPromptByID dbOne 1 := by
  refine ⟨(view_count_increment_async dbOne 1).1
            (transformToResponse (samplePrompt 0)) rfl,
          (view_count_increment_async dbOne 1).2.1 (samplePrompt 0) (by decide) rfl,
          (view_count_increment_async dbOne 1).2.2.1 rfl,
          (view_count_increment_async dbFailIncrement 1).2.2.2.1
            "connection reset" rfl,
          (view_count_increment_async dbOne 1).2.2.2.2 "connection reset"⟩

/-- Claim C10: two create requests that differ only in their examples, hints and
estimated-time fields produce identical outcomes — the same response and the same
resulting store — so those three accepted payload fields are discarded and never
influence any output of CreatePrompt. -/
theorem discarded_fields_no_influence (db : DbState) (r1 r2 : PromptCreateRequest)
    (ht : r1.title = r2.title) (hde : r1.description = r2.description)
    (hl : r1.language = r2.language) (hdi : r1.difficulty = r2.difficulty)
    (hc : r1.category = r2.category)
    (hp : r1.problemStatement = r2.problemStatement)
    (htg : r1.tags = r2.tags) (han : r1.authorName = r2.authorName)
    (hae : r1.authorEmail = r2.authorEmail) :
    createPrompt db r1 = createPrompt db r2 := by
  have hv : validateCreateRequest r1 = validateCreateRequest r2 := by
    unfold validateCreateRequest
    rw [ht, hde, hl, hdi, hc, hp]
  have htp : r1.toPrompt = r2.toPrompt := by
    unfold PromptCreateRequest.toPrompt
    rw [ht, hde, hl, hdi, hc, hp, htg, han, hae]
  unfold createPrompt
  rw [hv, htp]

/-- Witness for C10: two concrete requests differing only in examples, hints and
estimated time yield literally equal results. -/
theorem discarded_fields_no_influence_witness :
    createPrompt dbEmpty reqExtrasA = createPrompt dbEmpty reqExtrasB :=
  discarded_fields_no_influence dbEmpty reqExtrasA reqExtrasB
    rfl rfl rfl rfl rfl rfl rfl rfl rfl
